import Mathlib

/-!
Verification of the session/conversation correlation, deduplication,
response-caching and ID-mapping core of the svorumstrax chatbot backend.

The JavaScript source is shallowly embedded: timestamps (JS epoch
milliseconds, carried around as numbers or ISO strings that round-trip
through Date) are modelled as Nat; JS Map objects are modelled as
insertion-ordered association lists; JS Set objects as insertion-ordered
lists without duplicates at insertion; database collections as lists of
documents in insertion order, with findOne returning the first match;
fallible external calls are driven by explicit oracles and try/catch is
rendered through the Except monad.  Template strings such as
`tok_timestamp` are modelled with String append and Nat.repr.
-/

/-! ## JavaScript-semantics helpers -/

/-- JS `a || b` for an optional string: both absence and the empty string
are falsy and select the default. -/
def jsOrStr (o : Option String) (d : String) : String :=
  match o with
  | some s => if s = "" then d else s
  | none => d

/-- JS truthiness of an optional string value. -/
def jsTruthy (o : Option String) : Bool :=
  match o with
  | some s => s != ""
  | none => false

/-- JS `a || null` for an optional string: the empty string collapses to null. -/
def jsOrNull (o : Option String) : Option String :=
  match o with
  | some s => if s = "" then none else some s
  | none => none

/-- JS `toLowerCase()`, modelled as a character-wise case mapping. -/
def jsToLower (s : String) : String := ⟨s.data.map Char.toLower⟩

/-- JS `trim()`: strip whitespace from both ends. -/
def jsTrim (s : String) : String :=
  ⟨((s.data.dropWhile Char.isWhitespace).reverse.dropWhile
      Char.isWhitespace).reverse⟩

/-- Lookup in a JS Map modelled as an insertion-ordered association list. -/
def mapGet {β : Type} (m : List (String × β)) (k : String) : Option β :=
  match m.find? (fun p => p.1 == k) with
  | some p => some p.2
  | none => none

/-- JS Map.set: replace the binding in place if the key is present,
otherwise append a new binding (JS Maps keep insertion order). -/
def mapSet {β : Type} : List (String × β) → String → β → List (String × β)
  | [], k, v => [(k, v)]
  | (k', v') :: rest, k, v =>
      if k' == k then (k, v) :: rest else (k', v') :: mapSet rest k v

/-! ## Decimal printing of timestamps

JS interpolates numbers into template strings in decimal; the model uses
`Nat.repr`.  The development below establishes that `Nat.repr` is
injective (via a digit-valuation left inverse), which is what makes
conversation identifiers minted at distinct timestamps distinct. -/

/-- Numeric value of a decimal digit character. -/
def digitVal (c : Char) : Nat := c.toNat - 48

/-- Value of a decimal digit string (most significant first). -/
def digitsVal (l : List Char) : Nat :=
  l.foldl (fun a c => 10 * a + digitVal c) 0

/-! ## dataModels.js — Conversation Assembler

Timestamps in the source are ISO-8601 strings manipulated through
`new Date(x).getTime()`; since `toISOString` and parsing round-trip and
every ISO string is truthy, they are modelled directly as epoch
milliseconds (Nat).  The `throw` on a null input object is not modelled:
the embedded functions take a (non-null) record. -/

/-- Raw inbound message shape: every historical field a caller of
`normalizeMessage` might supply. -/
structure RawMessage where
  id : Option String := none
  content : Option String := none
  role : Option String := none
  sender : Option String := none
  type : Option String := none
  timestamp : Option Nat := none
  language : Option String := none
  postgresqlId : Option String := none
  defaultRole : Option String := none
deriving DecidableEq

/-- Canonical message schema produced by `normalizeMessage`. -/
structure MessageData where
  id : String
  content : String
  role : String
  type : String
  timestamp : Nat
  language : String
  postgresqlId : Option String
deriving DecidableEq

/-- dataModels.js `normalizeMessage`.  `now` is `Date.now()` and `rand`
the random suffix used when an id has to be generated. -/
def normalizeMessage (now : Nat) (rand : String) (message : RawMessage) :
    MessageData :=
  let id := jsOrStr message.id ("msg_" ++ Nat.repr now ++ "_" ++ rand)
  let content := jsOrStr message.content ""
  let role :=
    if message.role == some "user" || message.sender == some "user"
        || message.type == some "user" then "user"
    else if message.role == some "assistant" || message.sender == some "bot"
        || message.type == some "bot" then "assistant"
    else jsOrStr message.defaultRole "user"
  let ty := if role = "user" then "user" else "bot"
  { id := id, content := content, role := role, type := ty,
    timestamp := message.timestamp.getD now,
    language := jsOrStr message.language "en",
    postgresqlId := jsOrNull message.postgresqlId }

/-- Raw inbound conversation shape accepted by `normalizeConversation`. -/
structure RawConversation where
  id : Option String := none
  sessionId : Option String := none
  chatId : Option String := none
  clientId : Option String := none
  messages : Option (List RawMessage) := none
  userMessage : Option String := none
  botResponse : Option String := none
  startedAt : Option Nat := none
  startTime : Option Nat := none
  endedAt : Option Nat := none
  language : Option String := none
  topic : Option String := none
  status : Option String := none

/-- Canonical conversation schema produced by `normalizeConversation`. -/
structure ConversationData where
  id : String
  sessionId : String
  clientId : String
  messages : List MessageData
  startedAt : Nat
  endedAt : Nat
  language : String
  topic : String
  status : String
deriving DecidableEq

/-- Stable insertion into a list sorted by timestamp: the new element
goes after all strictly smaller keys and before equal keys met later,
which is exactly the stability guarantee of the JS `Array#sort` call
with comparator `(a, b) => ta - tb`. -/
def insertByTimestamp (x : MessageData) :
    List MessageData → List MessageData
  | [] => [x]
  | y :: ys =>
      if y.timestamp < x.timestamp then y :: insertByTimestamp x ys
      else x :: y :: ys

/-- Stable ascending sort by timestamp, modelling the
`messages.sort((a, b) => ta - tb)` step of `normalizeConversation`. -/
def sortByTimestamp : List MessageData → List MessageData
  | [] => []
  | x :: xs => insertByTimestamp x (sortByTimestamp xs)

/-- dataModels.js `normalizeConversation`.  `now` is `Date.now()`;
`randConv`, `randUser` and `randBot` are the random suffixes for the
generated conversation id and for the ids of messages synthesized from
the legacy `userMessage`/`botResponse` fields. -/
def normalizeConversation (now : Nat) (randConv randUser randBot : String)
    (conversation : RawConversation) : ConversationData :=
  let id := jsOrStr conversation.id ("conv_" ++ Nat.repr now ++ "_" ++ randConv)
  let sessionId := jsOrStr conversation.sessionId (jsOrStr conversation.chatId id)
  let clientId := jsOrStr conversation.clientId "svorum-strax"
  let startedAt :=
    (conversation.startedAt.orElse (fun _ => conversation.startTime)).getD now
  let endedAt := conversation.endedAt.getD now
  let language := jsOrStr conversation.language "en"
  let topic := jsOrStr conversation.topic "general"
  let status := jsOrStr conversation.status "active"
  let messages0 :=
    match conversation.messages with
    | some l => l.map (normalizeMessage now randConv)
    | none => []
  let messages1 :=
    if jsTruthy conversation.userMessage
        && !(messages0.any (fun m => m.role == "user")) then
      messages0 ++ [normalizeMessage now randUser
        { content := conversation.userMessage, role := some "user",
          timestamp := some startedAt }]
    else messages0
  let messages2 :=
    if jsTruthy conversation.botResponse
        && !(messages1.any (fun m => m.role == "assistant")) then
      messages1 ++ [normalizeMessage now randBot
        { content := conversation.botResponse, role := some "assistant",
          timestamp := some (startedAt + 1) }]
    else messages1
  { id := id, sessionId := sessionId, clientId := clientId,
    messages := sortByTimestamp messages2,
    startedAt := startedAt, endedAt := endedAt,
    language := language, topic := topic, status := status }

/-! ## sessionManager.js — Session Store

MongoDB connectivity and the four collection operations the module uses
are driven by a `DbOracle` that says which of them succeed; a failing
operation throws (`Except.error`), and every `try/catch` of the source
is rendered with `tryCatch`.  The `globalSessions` collection is a list
of documents in insertion order; `findOne` returns the first match. -/

/-- Session timeout: 15 minutes, in milliseconds. -/
def SESSION_TIMEOUT : Nat := 15 * 60 * 1000

/-- The session object kept in `global.sessionCache` and returned to
callers.  Objects in the source sometimes lack the `isNewSession` key;
absence is modelled as `false`. -/
structure SessionInfo where
  sessionId : String
  conversationId : String
  startedAt : Nat
  lastActivity : Nat
  isNewSession : Bool := false
deriving DecidableEq

/-- A document of the `globalSessions` MongoDB collection. -/
structure GlobalSessionDoc where
  frontendSessionId : String
  sessionId : String
  conversationId : String
  startedAt : Nat
  lastActivity : Nat
  previousConversationId : Option String := none
  isTimeoutSession : Bool := false
deriving DecidableEq

/-- Process-wide state touched by the session store: the in-memory cache
and the durable `globalSessions` collection. -/
structure SessionState where
  cache : List (String × SessionInfo)
  db : List GlobalSessionDoc
deriving DecidableEq

/-- Storage failures a durable-store operation can throw. -/
inductive DbError
  | connectionError
  | findError
  | insertError
  | updateError
deriving DecidableEq

/-- Which durable-store operations succeed during one request. -/
structure DbOracle where
  connectOk : Bool
  findOk : Bool
  insertOk : Bool
  updateOk : Bool
deriving DecidableEq

/-- The nominal oracle: storage fully available. -/
def dbAllOk : DbOracle :=
  { connectOk := true, findOk := true, insertOk := true, updateOk := true }

/-- `connectToDatabase()`. -/
def connectToDatabase (o : DbOracle) : Except DbError Unit :=
  if o.connectOk then .ok () else .error .connectionError

/-- `globalSessionCollection.findOne(frontendSessionId)`. -/
def sessionsFindOne (o : DbOracle) (db : List GlobalSessionDoc)
    (tok : String) : Except DbError (Option GlobalSessionDoc) :=
  if o.findOk then .ok (db.find? (fun d => d.frontendSessionId == tok))
  else .error .findError

/-- `globalSessionCollection.insertOne(doc)`. -/
def sessionsInsertOne (o : DbOracle) (db : List GlobalSessionDoc)
    (doc : GlobalSessionDoc) : Except DbError (List GlobalSessionDoc) :=
  if o.insertOk then .ok (db ++ [doc]) else .error .insertError

/-- Update of `lastActivity` on the first document with the given
conversation id (`updateOne` matches a single document). -/
def setLastActivity : List GlobalSessionDoc → String → Nat →
    List GlobalSessionDoc
  | [], _, _ => []
  | d :: ds, convId, now =>
      if d.conversationId == convId then { d with lastActivity := now } :: ds
      else d :: setLastActivity ds convId now

/-- `globalSessionCollection.updateOne({ conversationId }, { $set: { lastActivity } })`. -/
def sessionsUpdateActivity (o : DbOracle) (db : List GlobalSessionDoc)
    (convId : String) (now : Nat) : Except DbError (List GlobalSessionDoc) :=
  if o.updateOk then .ok (setLastActivity db convId now)
  else .error .updateError

/-- sessionManager.js `getOrCreateSession`.  `now` is `Date.now()` and
`rand` the random suffix used when a session id has to be synthesized.
Returns the session object handed to the caller together with the state
left behind; every `try/catch` of the source appears as a `tryCatch`. -/
def getOrCreateSession (o : DbOracle) (now : Nat) (rand : String)
    (st : SessionState) (sessionId : Option String) :
    Except DbError (SessionInfo × SessionState) :=
  tryCatch
    (do
      let frontendSessionId :=
        jsOrStr sessionId ("session_" ++ Nat.repr now ++ "_" ++ rand)
      match mapGet st.cache frontendSessionId with
      | some cachedSession =>
        if now - cachedSession.lastActivity > SESSION_TIMEOUT then
          let newConversationId := frontendSessionId ++ "_" ++ Nat.repr now
          let timeoutSession : SessionInfo :=
            { sessionId := frontendSessionId,
              conversationId := newConversationId,
              startedAt := now, lastActivity := now, isNewSession := true }
          let cache2 := mapSet st.cache frontendSessionId timeoutSession
          let db2 ←
            tryCatch
              (do
                let _ ← connectToDatabase o
                sessionsInsertOne o st.db
                  { frontendSessionId := frontendSessionId,
                    sessionId := frontendSessionId,
                    conversationId := newConversationId,
                    startedAt := now, lastActivity := now,
                    previousConversationId := some cachedSession.conversationId,
                    isTimeoutSession := true })
              (fun _ => pure st.db)
          pure (timeoutSession, { cache := cache2, db := db2 })
        else
          let cached2 := { cachedSession with lastActivity := now }
          let cache2 := mapSet st.cache frontendSessionId cached2
          let db2 ←
            tryCatch
              (do
                let _ ← connectToDatabase o
                sessionsUpdateActivity o st.db cachedSession.conversationId now)
              (fun _ => pure st.db)
          pure (cached2, { cache := cache2, db := db2 })
      | none =>
        match connectToDatabase o with
        | .error _ =>
          let tempSession : SessionInfo :=
            { sessionId := frontendSessionId,
              conversationId := frontendSessionId ++ "_" ++ Nat.repr now,
              startedAt := now, lastActivity := now, isNewSession := false }
          pure (tempSession,
            { cache := mapSet st.cache frontendSessionId tempSession,
              db := st.db })
        | .ok _ => do
          let existingSession ←
            tryCatch (sessionsFindOne o st.db frontendSessionId)
              (fun _ => pure none)
          let createNewSession : Except DbError (SessionInfo × SessionState) := do
            let newConversationId := frontendSessionId ++ "_" ++ Nat.repr now
            let db2 ←
              tryCatch
                (sessionsInsertOne o st.db
                  { frontendSessionId := frontendSessionId,
                    sessionId := frontendSessionId,
                    conversationId := newConversationId,
                    startedAt := now, lastActivity := now })
                (fun _ => pure st.db)
            let sessionInfo : SessionInfo :=
              { sessionId := frontendSessionId,
                conversationId := newConversationId,
                startedAt := now, lastActivity := now, isNewSession := true }
            pure (sessionInfo,
              { cache := mapSet st.cache frontendSessionId sessionInfo,
                db := db2 })
          match existingSession with
          | some es =>
            if es.conversationId ≠ "" then
              if now - es.lastActivity > SESSION_TIMEOUT then do
                let newConversationId := frontendSessionId ++ "_" ++ Nat.repr now
                let db2 ←
                  tryCatch
                    (sessionsInsertOne o st.db
                      { frontendSessionId := frontendSessionId,
                        sessionId := frontendSessionId,
                        conversationId := newConversationId,
                        startedAt := now, lastActivity := now,
                        previousConversationId := some es.conversationId,
                        isTimeoutSession := true })
                    (fun _ => pure st.db)
                let sessionInfo : SessionInfo :=
                  { sessionId := frontendSessionId,
                    conversationId := newConversationId,
                    startedAt := now, lastActivity := now,
                    isNewSession := true }
                pure (sessionInfo,
                  { cache := mapSet st.cache frontendSessionId sessionInfo,
                    db := db2 })
              else do
                let db2 ←
                  tryCatch (sessionsUpdateActivity o st.db es.conversationId now)
                    (fun _ => pure st.db)
                let sessionInfo : SessionInfo :=
                  { sessionId := es.sessionId,
                    conversationId := es.conversationId,
                    startedAt := es.startedAt, lastActivity := now,
                    isNewSession := false }
                pure (sessionInfo,
                  { cache := mapSet st.cache frontendSessionId sessionInfo,
                    db := db2 })
            else createNewSession
          | none => createNewSession)
    (fun _ =>
      let fallbackKey := jsOrStr sessionId ("emergency_" ++ Nat.repr now)
      let fallbackSession : SessionInfo :=
        { sessionId := fallbackKey,
          conversationId := jsOrStr sessionId "unknown" ++ "_" ++ Nat.repr now,
          startedAt := now, lastActivity := now, isNewSession := false }
      pure (fallbackSession,
        { cache := mapSet st.cache fallbackKey fallbackSession, db := st.db }))

/-! ## messageProcessor.js — Deduplicator, persistence, forwarder, reconciler

`processedMessages` (a JS Set) and `analyticsSentMessages` (a JS Map)
are insertion-ordered lists; the MongoDB `conversations` and
`message_id_mappings` collections are lists of documents in insertion
order.  The external analytics HTTP call is driven by an
`AnalyticsOutcome` oracle.  Observable persistence/forwarding calls are
reported as an effect trace alongside the new state. -/

/-- A value of the `analyticsSentMessages` map. -/
structure SentRecord where
  timestamp : Nat
  postgresqlId : Option String
deriving DecidableEq

/-- A document of the `message_id_mappings` collection. -/
structure MappingDoc where
  mongodbId : String
  postgresqlId : String
  content : Option String := none
  trackingId : Option String := none
  createdAt : Nat := 0
  updatedAt : Option Nat := none
deriving DecidableEq

/-- A document of the `conversations` collection. -/
structure StoredConversation where
  conv : ConversationData
  createdAt : Nat
  lastActivity : Nat
deriving DecidableEq

/-- Process-wide state touched by the message processor. -/
structure ProcState where
  processedMessages : List String
  analyticsSentMessages : List (String × SentRecord)
  conversations : List StoredConversation
  mappings : List MappingDoc
deriving DecidableEq

/-- Observable persistence/forwarding operations. -/
inductive ProcEffect
  | mongoSave
  | analyticsPost
deriving DecidableEq

/-- Outcome of the analytics `fetch` as seen by the caller. -/
inductive AnalyticsOutcome
  | networkError
  | httpError
  | parseError
  | ok (ids : List String)
deriving DecidableEq

/-- Per-call environment of `processMessagePair`: the session resolved
by `getOrCreateSession` for this call, the wall clock, the two uuidv4
draws, MongoDB availability and the analytics response. -/
structure ProcEnv where
  session : SessionInfo
  now : Nat
  uuid1 : String
  uuid2 : String
  mongoOk : Bool
  analytics : AnalyticsOutcome
deriving DecidableEq

/-- Metadata argument of `processMessagePair`. -/
structure ProcMeta where
  sessionId : Option String := none
  language : Option String := none
  topic : Option String := none
  status : Option String := none
  clientId : Option String := none
deriving DecidableEq

/-- The dedup signature: conversation id plus 40-char prefixes of both
texts. -/
def messageSignature (conversationId userMessage botResponse : String) :
    String :=
  conversationId ++ ":" ++ userMessage.take 40 ++ ":" ++ botResponse.take 40

/-- View of a normalized message as it flows back into
`normalizeConversation` (the JS object keeps exactly these keys). -/
def MessageData.toRaw (m : MessageData) : RawMessage :=
  { id := some m.id, content := some m.content, role := some m.role,
    type := some m.type, timestamp := some m.timestamp,
    language := some m.language, postgresqlId := m.postgresqlId }

/-- `$push` of new messages plus `$set` of `endedAt`/`lastActivity` on
the first conversation document with the given id. -/
def pushMessages : List StoredConversation → ConversationData → Nat →
    List StoredConversation
  | [], _, _ => []
  | d :: ds, c, now =>
      if d.conv.id == c.id then
        { d with
          conv := { d.conv with
            messages := d.conv.messages ++ c.messages,
            endedAt := c.endedAt },
          lastActivity := now } :: ds
      else d :: pushMessages ds c now

/-- messageProcessor.js `saveConversationToMongoDB`: update the existing
conversation document or insert a new one; a storage failure is caught
and reported as `false` with no write. -/
def saveConversationToMongoDB (mongoOk : Bool) (now : Nat)
    (convs : List StoredConversation) (c : ConversationData) :
    Bool × List StoredConversation × List ProcEffect :=
  if mongoOk then
    match convs.find? (fun d => d.conv.id == c.id) with
    | some _ => (true, pushMessages convs c now, [.mongoSave])
    | none =>
        (true, convs ++ [{ conv := c, createdAt := now, lastActivity := now }],
          [.mongoSave])
  else (false, convs, [])

/-- Bot messages of a conversation payload, as filtered by
`sendConversationToAnalytics`. -/
def botMessagesOf (c : ConversationData) : List MessageData :=
  c.messages.filter (fun m => m.role == "assistant" || m.type == "bot")

/-- The forwarding-boundary signature: 50-char content prefix plus
timestamp of every bot message, joined with a bar. -/
def analyticsSignature (botMessages : List MessageData) : String :=
  String.intercalate "|"
    (botMessages.map (fun m => m.content.take 50 ++ "-" ++ Nat.repr m.timestamp))

/-- Result object of `sendConversationToAnalytics`. -/
structure AnalyticsResult where
  success : Bool
  postgresqlId : Option String
  deduplicated : Bool := false
deriving DecidableEq

/-- One step of the ID-mapping loop over `responseData.messages`: the
i-th returned id is paired with the i-th submitted message; entries with
a missing id on either side are skipped; the running bot message
PostgreSQL id is updated on assistant messages. -/
def mappingStep (now : Nat) (acc : List MappingDoc × Option String)
    (p : String × MessageData) : List MappingDoc × Option String :=
  if p.1 != "" && p.2.id != "" then
    (acc.1 ++ [{ mongodbId := p.2.id, postgresqlId := p.1,
                 content := some p.2.content, createdAt := now }],
      if p.2.role == "assistant" || p.2.type == "bot" then some p.1 else acc.2)
  else acc

/-- messageProcessor.js `sendConversationToAnalytics`.  `outcome` is the
analytics HTTP response; `mongoOk` covers the MongoDB connection used
for ID-mapping storage.  Returns the result object, the new state and
the forwarding-call trace (one `analyticsPost` per `fetch` attempted). -/
def sendConversationToAnalytics (now : Nat) (outcome : AnalyticsOutcome)
    (mongoOk : Bool) (st : ProcState) (c : ConversationData) :
    AnalyticsResult × ProcState × List ProcEffect :=
  let botMessages := botMessagesOf c
  let dedupHit : Option SentRecord :=
    if botMessages.isEmpty then none
    else mapGet st.analyticsSentMessages (analyticsSignature botMessages)
  match dedupHit with
  | some previouslySent =>
      ({ success := true, postgresqlId := previouslySent.postgresqlId,
          deduplicated := true }, st, [])
  | none =>
      match outcome with
      | .networkError =>
          ({ success := false, postgresqlId := none }, st, [.analyticsPost])
      | .httpError =>
          ({ success := false, postgresqlId := none }, st, [.analyticsPost])
      | .parseError =>
          ({ success := true, postgresqlId := none }, st, [.analyticsPost])
      | .ok ids =>
          if mongoOk then
            let looped := (ids.zip c.messages).foldl (mappingStep now)
              (st.mappings, none)
            let botMessagePostgresqlId := looped.2
            let sent2 :=
              if botMessages.isEmpty then st.analyticsSentMessages
              else
                let sent1 := mapSet st.analyticsSentMessages
                  (analyticsSignature botMessages)
                  { timestamp := now, postgresqlId := botMessagePostgresqlId }
                if sent1.length > 500 then
                  sent1.filter (fun kv =>
                    !(Nat.blt kv.2.timestamp (now - 86400000)))
                else sent1
            ({ success := true, postgresqlId := botMessagePostgresqlId },
              { st with mappings := looped.1, analyticsSentMessages := sent2 },
              [.analyticsPost])
          else
            ({ success := false, postgresqlId := none }, st, [.analyticsPost])

/-- Result object of `processMessagePair` (`success` plus the error
codes `incomplete_message_pair` and `duplicate_message`). -/
inductive ProcResult
  | success (conversationId userMessageId botMessageId : String)
      (postgresqlId : Option String)
  | incompletePair
  | duplicateMessage
deriving DecidableEq

/-- messageProcessor.js `processMessagePair`: validation, session
resolution, dedup gate, normalization, persistence, forwarding. -/
def processMessagePair (env : ProcEnv) (st : ProcState)
    (userMessage botResponse : String) (metadata : ProcMeta) :
    ProcResult × ProcState × List ProcEffect :=
  if userMessage = "" || botResponse = "" then (.incompletePair, st, [])
  else
    let sessionInfo := env.session
    let sig := messageSignature sessionInfo.conversationId userMessage botResponse
    if st.processedMessages.contains sig then (.duplicateMessage, st, [])
    else
      let processed1 := st.processedMessages ++ [sig]
      let processed2 :=
        if processed1.length > 1000 then processed1.drop 500 else processed1
      let userMessageId :=
        "user-msg-" ++ Nat.repr env.now ++ "-" ++ env.uuid1.take 8
      let botMessageId :=
        "bot-msg-" ++ Nat.repr (env.now + 1) ++ "-" ++ env.uuid2.take 8
      let lang := jsOrStr metadata.language "en"
      let normalizedUserMessage := normalizeMessage env.now ""
        { id := some userMessageId, content := some userMessage,
          role := some "user", sender := some "user",
          timestamp := some env.now, language := some lang }
      let normalizedBotMessage := normalizeMessage env.now ""
        { id := some botMessageId, content := some botResponse,
          role := some "assistant", sender := some "bot",
          timestamp := some (env.now + 1), language := some lang }
      let conversationData := normalizeConversation env.now "" "" ""
        { id := some sessionInfo.conversationId,
          sessionId := some sessionInfo.sessionId,
          clientId := some (jsOrStr metadata.clientId "svorum-strax"),
          messages := some [normalizedUserMessage.toRaw,
            normalizedBotMessage.toRaw],
          startedAt := some sessionInfo.startedAt,
          endedAt := some env.now,
          language := some lang,
          topic := some (jsOrStr metadata.topic "general"),
          status := some (jsOrStr metadata.status "active") }
      let st1 := { st with processedMessages := processed2 }
      let saved := saveConversationToMongoDB env.mongoOk env.now
        st1.conversations conversationData
      let st2 := { st1 with conversations := saved.2.1 }
      let sent := sendConversationToAnalytics env.now env.analytics env.mongoOk
        st2 conversationData
      (.success sessionInfo.conversationId userMessageId botMessageId
          (jsOrNull sent.1.postgresqlId),
        sent.2.1, saved.2.2 ++ sent.2.2)

/-- The mapping lookup step of `getMessageFeedback`: first document of
`message_id_mappings` matching the given id on either side. -/
def findMapping (mappings : List MappingDoc) (messageId : String) :
    Option MappingDoc :=
  mappings.find? (fun d => d.mongodbId == messageId || d.postgresqlId == messageId)

/-- In-place update of the first document satisfying the predicate. -/
def upsertFirst : List MappingDoc → (MappingDoc → Bool) →
    (MappingDoc → MappingDoc) → List MappingDoc
  | [], _, _ => []
  | d :: ds, p, f => if p d then f d :: ds else d :: upsertFirst ds p f

/-- messageProcessor.js `createMessageIdMapping` (collection-state
view; storage assumed reachable): upsert of a (mongodbId, postgresqlId)
pair, updating the first document that matches either side rather than
inserting a duplicate.  Falsy ids fall back to uuid-derived ones. -/
def createMessageIdMapping (uuid : String) (now : Nat)
    (mappings : List MappingDoc) (mongodbId0 postgresqlId0 : String)
    (content : Option String) : List MappingDoc :=
  let mongodbId := if mongodbId0 = "" then "mongo-" ++ uuid else mongodbId0
  let postgresqlId := if postgresqlId0 = "" then "pg-" ++ uuid else postgresqlId0
  let pred := fun (d : MappingDoc) =>
    d.mongodbId == mongodbId || d.postgresqlId == postgresqlId
  match mappings.find? pred with
  | some _ =>
      upsertFirst mappings pred (fun d =>
        { d with mongodbId := mongodbId, postgresqlId := postgresqlId,
                 content := (match jsOrNull content with
                             | some cnt => some cnt
                             | none => d.content),
                 updatedAt := some now })
  | none =>
      mappings ++ [{ mongodbId := mongodbId, postgresqlId := postgresqlId,
                     content := jsOrNull content, trackingId := some uuid,
                     createdAt := now }]

/-! ## Server /chat endpoint — Response Cache

Model of the HTTP chat handler of the WebSocket server variant (the
optimized variant is structurally identical up to the cache-key shape).
`responseCache` is a JS Map from key to a heap-allocated entry object;
to capture the aliasing through which the fire-and-forget continuation
mutates `cached.response.postgresqlMessageId`, entry objects live in an
explicit heap (allocation order list) and the map stores references.
Topic detection and the in-process chat-history map are orthogonal to
every claim; the topic is an environment input and the history map is
not modelled.  The continuation runs `broadcastConversation`, which is
represented by the remote id it returns. -/

/-- The JSON payload cached and returned by the /chat handler (the
nested language object is flattened to its `detected` field, from which
`isIcelandic` is derived; `debugInfo` is development-only). -/
structure ResponseData where
  message : String
  sessionId : String
  threadId : String
  postgresqlMessageId : Option String
  languageDetected : String
  topic : String
deriving DecidableEq

/-- A heap-allocated `{ response, timestamp }` cache entry object. -/
structure CacheEntry where
  response : ResponseData
  timestamp : Nat
deriving DecidableEq

/-- The response cache: entry objects in allocation order plus the JS
Map from cache key to entry reference. -/
structure ResponseCacheState where
  heap : List CacheEntry
  refs : List (String × Nat)
deriving DecidableEq

/-- `responseCache.get(key)` — the entry object the key maps to. -/
def responseCacheLookup (st : ResponseCacheState) (k : String) :
    Option CacheEntry :=
  match mapGet st.refs k with
  | some r => st.heap[r]?
  | none => none

/-- The read side of the cache as the /chat handler performs it:
`responseCache.get` followed by the inline TTL check
`Date.now() - cached.timestamp < 3600000`. -/
def cacheGetFresh (st : ResponseCacheState) (k : String) (now : Nat) :
    Option ResponseData :=
  match responseCacheLookup st k with
  | some c => if now - c.timestamp < 3600000 then some c.response else none
  | none => none

/-- `responseCache.set(key, { response, timestamp })`: a fresh entry
object is allocated and the map is pointed at it. -/
def cachePut (st : ResponseCacheState) (k : String) (e : CacheEntry) :
    ResponseCacheState :=
  { heap := st.heap ++ [e], refs := mapSet st.refs k st.heap.length }

/-- The periodic sweep (`setInterval`, hourly): delete every map entry
whose object is older than one hour. -/
def sweepResponseCache (now : Nat) (st : ResponseCacheState) :
    ResponseCacheState :=
  { st with refs := st.refs.filter (fun kv =>
      match st.heap[kv.2]? with
      | some e => !(Nat.blt e.timestamp (now - 3600000))
      | none => true) }

/-- Characters of the Icelandic-detection character class. -/
def icelandicChars : List Char :=
  ['á', 'é', 'í', 'ó', 'ú', 'ý', 'þ', 'æ', 'ð', 'ö',
   'Á', 'É', 'Í', 'Ó', 'Ú', 'Ý', 'Þ', 'Æ', 'Ð', 'Ö']

/-- `language || (userMessage?.match(icelandic) ? "is" : "en")`. -/
def detectLanguage (language : Option String) (userMessage : String) :
    String :=
  jsOrStr language
    (if userMessage.any (fun c => icelandicChars.contains c) then "is"
     else "en")

/-- The /chat cache key:
`sessionId:normalizedText:language:imageCount:fileCount`. -/
def chatCacheKey (sessionId userMessage detectedLanguage : String)
    (imgCount fileCount : Nat) : String :=
  sessionId ++ ":" ++ jsTrim (jsToLower userMessage) ++ ":" ++ detectedLanguage
    ++ ":" ++ Nat.repr imgCount ++ ":" ++ Nat.repr fileCount

/-- Observable operations of one /chat request. -/
inductive ChatEffect
  | sessionLookup
  | modelCall
  | broadcast
deriving DecidableEq

/-- Environment of one /chat request: storage oracle, wall clock,
random suffix for session synthesis, the model reply, the detected
topic and the remote id returned by the background broadcast. -/
structure ChatEnv where
  dbo : DbOracle
  now : Nat
  rand : String
  modelReply : String
  topic : String
  broadcastPg : Option String
deriving DecidableEq

/-- Process-wide state the /chat handler touches. -/
structure ChatState where
  responseCache : ResponseCacheState
  session : SessionState
deriving DecidableEq

/-- What the handler sends back. -/
inductive ChatOutcome
  | cachedReply (r : ResponseData)
  | freshReply (r : ResponseData)
  | serverError
deriving DecidableEq

/-- The /chat handler from the cache check onward, including the
fire-and-forget continuation: on a fresh hit the cached payload is
returned at once; otherwise the session is resolved, the model called,
the reply cached under a newly allocated entry object, and after the
broadcast the source attempts the back-fill
`if (broadcastResult.postgresqlId && cached) cached.response.postgresqlMessageId = ...`,
where `cached` is the entry object looked up before the TTL check. -/
def chatHandler (env : ChatEnv) (st : ChatState) (sessionId userMessage : String)
    (language : Option String) (imgCount fileCount : Nat) :
    ChatOutcome × ChatState × List ChatEffect :=
  let detectedLanguage := detectLanguage language userMessage
  let cacheKey := chatCacheKey sessionId userMessage detectedLanguage
    imgCount fileCount
  let cachedRef := mapGet st.responseCache.refs cacheKey
  let cached := responseCacheLookup st.responseCache cacheKey
  let hit := cacheGetFresh st.responseCache cacheKey env.now
  match hit with
  | some r => (.cachedReply r, st, [])
  | none =>
      match getOrCreateSession env.dbo env.now env.rand st.session
          (some sessionId) with
      | .error _ => (.serverError, st, [.sessionLookup])
      | .ok (_, sst2) =>
          let responseData : ResponseData :=
            { message := env.modelReply, sessionId := sessionId,
              threadId := sessionId, postgresqlMessageId := none,
              languageDetected := detectedLanguage, topic := env.topic }
          let rc1 := cachePut st.responseCache cacheKey
            { response := responseData, timestamp := env.now }
          let rc2 :=
            match env.broadcastPg, cached, cachedRef with
            | some pg, some _, some r =>
                match rc1.heap[r]? with
                | some e =>
                    let resp2 := { e.response with postgresqlMessageId := some pg }
                    { rc1 with heap := rc1.heap.set r { e with response := resp2 } }
                | none => rc1
            | _, _, _ => rc1
          (.freshReply responseData,
            { responseCache := rc2, session := sst2 },
            [.sessionLookup, .modelCall, .broadcast])

theorem digitVal_digitChar (m : Nat) (h : m < 10) :
    digitVal (Nat.digitChar m) = m := by
  interval_cases m <;> rfl

theorem foldl_toDigitsCore (f : Nat) : ∀ (n : Nat) (ds : List Char), n < f →
    (Nat.toDigitsCore 10 f n ds).foldl (fun a c => 10 * a + digitVal c) 0
      = ds.foldl (fun a c => 10 * a + digitVal c) n := by
  induction f with
  | zero => intro n ds h; exact absurd h (Nat.not_lt_zero n)
  | succ f ih =>
    intro n ds h
    show (if n / 10 = 0 then Nat.digitChar (n % 10) :: ds
          else Nat.toDigitsCore 10 f (n / 10) (Nat.digitChar (n % 10) :: ds)).foldl
            (fun a c => 10 * a + digitVal c) 0
        = ds.foldl (fun a c => 10 * a + digitVal c) n
    by_cases hz : n / 10 = 0
    · simp only [hz, if_true, List.foldl_cons, Nat.mul_zero, Nat.zero_add,
        digitVal_digitChar (n % 10) (Nat.mod_lt n (by norm_num))]
      have hn : n % 10 = n := by omega
      rw [hn]
    · have hpos : 0 < n := by
        rcases Nat.eq_zero_or_pos n with h0 | h0
        · exact absurd (by simp [h0]) hz
        · exact h0
      have hlt : n / 10 < f := by
        have : n / 10 < n := Nat.div_lt_self hpos (by norm_num)
        omega
      simp only [hz, if_false]
      rw [ih (n / 10) (Nat.digitChar (n % 10) :: ds) hlt]
      simp only [List.foldl_cons,
        digitVal_digitChar (n % 10) (Nat.mod_lt n (by norm_num))]
      rw [Nat.div_add_mod n 10]

theorem digitsVal_toDigits (n : Nat) : digitsVal (Nat.toDigits 10 n) = n := by
  unfold digitsVal Nat.toDigits
  rw [foldl_toDigitsCore (n + 1) n [] (Nat.lt_succ_self n)]
  rfl

theorem natRepr_injective : Function.Injective Nat.repr := by
  intro a b h
  have hd : Nat.toDigits 10 a = Nat.toDigits 10 b := by
    have := congrArg String.data h
    simpa [Nat.repr, List.asString] using this
  have := congrArg digitsVal hd
  rwa [digitsVal_toDigits, digitsVal_toDigits] at this

theorem string_append_cancel_left (s a b : String) (h : s ++ a = s ++ b) :
    a = b := by
  have hd := congrArg String.data h
  simp only [String.data_append] at hd
  have := List.append_cancel_left hd
  cases a; cases b; exact congrArg String.mk this

/-- Identifiers minted as `tok_time` at distinct times are distinct. -/
theorem mint_ne_of_time_ne (tok : String) (t0 t1 : Nat) (h : t0 ≠ t1) :
    tok ++ "_" ++ Nat.repr t0 ≠ tok ++ "_" ++ Nat.repr t1 := by
  intro he
  exact h (natRepr_injective (string_append_cancel_left (tok ++ "_") _ _ he))

/-! ## Helper lemmas -/

theorem except_tryCatch_pure {α : Type} (x : Except DbError α) (v : α) :
    tryCatch x (fun _ => (pure v : Except DbError α)) =
      .ok (match x with | .ok a => a | .error _ => v) := by
  cases x <;> rfl

theorem mapGet_mapSet_self {β : Type} (m : List (String × β)) (k : String)
    (v : β) : mapGet (mapSet m k v) k = some v := by
  induction m with
  | nil => simp [mapSet, mapGet]
  | cons p rest ih =>
      obtain ⟨k', v'⟩ := p
      by_cases h : k' = k
      · simp [mapSet, mapGet, h]
      · simpa [mapSet, mapGet, h] using ih

theorem mapGet_mem {β : Type} (m : List (String × β)) (k : String) (v : β)
    (h : mapGet m k = some v) : ∃ k', (k', v) ∈ m := by
  unfold mapGet at h
  cases hf : m.find? (fun p => p.1 == k) with
  | none => rw [hf] at h; exact absurd h (by simp)
  | some p =>
      rw [hf] at h
      have hm := List.mem_of_find?_eq_some hf
      obtain ⟨k', v'⟩ := p
      simp only [Option.some.injEq] at h
      exact ⟨k', h ▸ hm⟩

theorem jsOrStr_ne_empty (o : Option String) (d : String) (hd : d ≠ "") :
    jsOrStr o d ≠ "" := by
  cases o with
  | none => simpa [jsOrStr] using hd
  | some s =>
      by_cases hs : s = "" <;> simp [jsOrStr, hs, hd]

theorem string_length_zero {s : String} (h : s.length = 0) : s = "" := by
  cases s with
  | mk data =>
      cases data with
      | nil => rfl
      | cons c cs => simp [String.length] at h

theorem append_ne_empty_left (s t : String) (h : s ≠ "") : s ++ t ≠ "" := by
  intro he
  have hlen := congrArg String.length he
  rw [String.length_append] at hlen
  have h0 : ("" : String).length = 0 := rfl
  rw [h0] at hlen
  exact h (string_length_zero (by omega))

theorem append_ne_empty_right (s t : String) (h : t ≠ "") : s ++ t ≠ "" := by
  intro he
  have hlen := congrArg String.length he
  rw [String.length_append] at hlen
  have h0 : ("" : String).length = 0 := rfl
  rw [h0] at hlen
  exact h (string_length_zero (by omega))

theorem mint_ne_empty (a b : String) : a ++ "_" ++ b ≠ "" :=
  append_ne_empty_left (a ++ "_") b
    (append_ne_empty_right a "_" (by decide))

/-! ## Claim theorems -/

/-- C5: for every cache key, a put followed immediately by a get returns
the payload unchanged, and a get performed more than one hour after the
put reports a miss even though no sweep has run, because the read side
checks staleness inline before returning. -/
theorem responseCache_roundtrip_ttl (st : ResponseCacheState) (k : String)
    (p : ResponseData) (now later : Nat) (h : later - now > 3600000) :
    cacheGetFresh (cachePut st k { response := p, timestamp := now }) k now
        = some p ∧
    cacheGetFresh (cachePut st k { response := p, timestamp := now }) k later
        = none := by
  have href : mapGet (mapSet st.refs k st.heap.length) k
      = some st.heap.length := mapGet_mapSet_self _ _ _
  have hheap : (st.heap ++ [({ response := p, timestamp := now } : CacheEntry)])[st.heap.length]?
      = some { response := p, timestamp := now } :=
    List.getElem?_concat_length _ _
  constructor
  · simp [cacheGetFresh, responseCacheLookup, cachePut, href, hheap]
  · simp [cacheGetFresh, responseCacheLookup, cachePut, href, hheap]
    omega

/-- Witness for the cache round-trip and TTL theorem: concrete payload,
put at time 0, reads at times 0 and 3600001. -/
theorem responseCache_roundtrip_ttl_witness :
    3600001 - 0 > 3600000 ∧
    (cacheGetFresh (cachePut { heap := [], refs := [] } "k"
        { response := { message := "m", sessionId := "s", threadId := "s",
                        postgresqlMessageId := none, languageDetected := "en",
                        topic := "general" }, timestamp := 0 }) "k" 0
      = some { message := "m", sessionId := "s", threadId := "s",
               postgresqlMessageId := none, languageDetected := "en",
               topic := "general" } ∧
     cacheGetFresh (cachePut { heap := [], refs := [] } "k"
        { response := { message := "m", sessionId := "s", threadId := "s",
                        postgresqlMessageId := none, languageDetected := "en",
                        topic := "general" }, timestamp := 0 }) "k" 3600001
      = none) :=
  ⟨by decide, responseCache_roundtrip_ttl { heap := [], refs := [] } "k"
    { message := "m", sessionId := "s", threadId := "s",
      postgresqlMessageId := none, languageDetected := "en",
      topic := "general" } 0 3600001 (by decide)⟩

/-- C7: normalizing the bare legacy pair userMessage hi, botResponse
hello yields a conversation with a nonempty id and exactly two messages,
user then assistant, with strictly increasing timestamps, the list
sorted ascending by timestamp. -/
theorem normalize_legacy_pair (now : Nat) (rc ru rb : String) :
    (normalizeConversation now rc ru rb
        { userMessage := some "hi", botResponse := some "hello" }).id ≠ "" ∧
    ∃ m1 m2,
      (normalizeConversation now rc ru rb
          { userMessage := some "hi", botResponse := some "hello" }).messages
        = [m1, m2] ∧
      m1.role = "user" ∧ m2.role = "assistant" ∧
      m1.timestamp < m2.timestamp ∧
      List.Sorted (fun a b : MessageData => a.timestamp ≤ b.timestamp)
        (normalizeConversation now rc ru rb
          { userMessage := some "hi", botResponse := some "hello" }).messages := by
  have hr1 : (normalizeMessage now ru { content := some "hi",
                                        role := some "user",
                                        timestamp := some now }).role
      = "user" := rfl
  have hr2 : (normalizeMessage now rb { content := some "hello",
                                        role := some "assistant",
                                        timestamp := some (now + 1) }).role
      = "assistant" := rfl
  have ht1 : (normalizeMessage now ru { content := some "hi",
                                        role := some "user",
                                        timestamp := some now }).timestamp
      = now := rfl
  have ht2 : (normalizeMessage now rb { content := some "hello",
                                        role := some "assistant",
                                        timestamp := some (now + 1) }).timestamp
      = now + 1 := rfl
  have hmsgs :
      (normalizeConversation now rc ru rb
          { userMessage := some "hi", botResponse := some "hello" }).messages
        = [normalizeMessage now ru { content := some "hi",
                                     role := some "user",
                                     timestamp := some now },
           normalizeMessage now rb { content := some "hello",
                                     role := some "assistant",
                                     timestamp := some (now + 1) }] := by
    simp only [normalizeConversation]
    simp [jsTruthy, hr1, hr2, sortByTimestamp, insertByTimestamp, ht1, ht2,
      show ¬(now + 1 < now) by omega]
  constructor
  · simpa [normalizeConversation, jsOrStr] using
      mint_ne_empty ("conv_" ++ Nat.repr now) rc
  · refine ⟨_, _, hmsgs, hr1, hr2, ?_, ?_⟩
    · rw [ht1, ht2]; omega
    · rw [hmsgs]
      simp [List.sorted_cons, ht1, ht2]

/-- C8 evaluation at the failing input: a message whose only role
information is a non-canonical defaultRole field has that value passed
through verbatim, escaping the documented two-value role vocabulary. -/
theorem normalizeMessage_defaultRole_passthrough :
    (normalizeMessage 0 "" { defaultRole := some "moderator" }).role
        = "moderator" ∧
    (normalizeMessage 0 "" { defaultRole := some "moderator" }).role
        ≠ "user" ∧
    (normalizeMessage 0 "" { defaultRole := some "moderator" }).role
        ≠ "assistant" :=
  ⟨rfl, by decide, by decide⟩

/-- C3: when the assistant-message signature of the payload is already
in the forwarded-signature map, the forwarder short-circuits: it makes
no forwarding call, leaves the state untouched, and returns the remote
id previously obtained for that signature. -/
theorem analytics_forward_shortcircuit (now : Nat)
    (outcome : AnalyticsOutcome) (mongoOk : Bool) (st : ProcState)
    (c : ConversationData) (r : SentRecord)
    (hbot : botMessagesOf c ≠ [])
    (hhit : mapGet st.analyticsSentMessages
        (analyticsSignature (botMessagesOf c)) = some r) :
    sendConversationToAnalytics now outcome mongoOk st c =
      ({ success := true, postgresqlId := r.postgresqlId,
         deduplicated := true }, st, []) := by
  have hne : (botMessagesOf c).isEmpty = false := by
    cases hb : botMessagesOf c with
    | nil => exact absurd hb hbot
    | cons x xs => rfl
  unfold sendConversationToAnalytics
  simp [hne, hhit]

set_option maxRecDepth 8192 in
/-- Witness for the forwarding short-circuit: one assistant message
whose signature is recorded with remote id pg-7. -/
theorem analytics_forward_shortcircuit_witness :
    botMessagesOf
        { id := "c1", sessionId := "s1", clientId := "x",
          messages := [{ id := "m1", content := "hello",
                         role := "assistant", type := "bot", timestamp := 5,
                         language := "en", postgresqlId := none }],
          startedAt := 0, endedAt := 9, language := "en", topic := "t",
          status := "a" } ≠ [] ∧
    sendConversationToAnalytics 77 .networkError true
        { processedMessages := [],
          analyticsSentMessages :=
            [("hello-5", { timestamp := 1, postgresqlId := some "pg-7" })],
          conversations := [], mappings := [] }
        { id := "c1", sessionId := "s1", clientId := "x",
          messages := [{ id := "m1", content := "hello",
                         role := "assistant", type := "bot", timestamp := 5,
                         language := "en", postgresqlId := none }],
          startedAt := 0, endedAt := 9, language := "en", topic := "t",
          status := "a" } =
      ({ success := true, postgresqlId := some "pg-7", deduplicated := true },
        { processedMessages := [],
          analyticsSentMessages :=
            [("hello-5", { timestamp := 1, postgresqlId := some "pg-7" })],
          conversations := [], mappings := [] }, []) :=
  ⟨by decide, analytics_forward_shortcircuit 77 .networkError true _ _
    { timestamp := 1, postgresqlId := some "pg-7" } (by decide) rfl⟩

set_option maxRecDepth 8192 in
/-- C4 counterexample: starting from the empty collection, record
(X, A), then (A, C), then (A, B).  The third upsert updates the first
document matching localId A or remoteId B, which is the (A, C) one, yet
the older (X, A) document still references A, so a lookup by A resolves
to the pair (X, A) rather than (A, B) — refuting the claim that after
recordMapping(A, B) a lookup by either id yields that pair. -/
theorem mapping_lookup_shadowed :
    (findMapping
        (createMessageIdMapping "u3" 3
          (createMessageIdMapping "u2" 2
            (createMessageIdMapping "u1" 1 [] "X" "A" none) "A" "C" none)
          "A" "B" none) "A").map (fun d => (d.mongodbId, d.postgresqlId))
      = some ("X", "A") ∧ (("X", "A") : String × String) ≠ ("A", "B") :=
  ⟨rfl, by decide⟩

/-- C4 amended: from a collection state in which no stored mapping
references A or B on either side, after recording the mapping (A, B) a
lookup supplying either A or B resolves to that same pair. -/
theorem mapping_upsert_lookup (uuid : String) (now : Nat)
    (ms : List MappingDoc) (A B : String) (hA : A ≠ "") (hB : B ≠ "")
    (hfree : ∀ d ∈ ms, d.mongodbId ≠ A ∧ d.mongodbId ≠ B ∧
        d.postgresqlId ≠ A ∧ d.postgresqlId ≠ B) :
    ∃ d, findMapping (createMessageIdMapping uuid now ms A B none) A = some d
      ∧ findMapping (createMessageIdMapping uuid now ms A B none) B = some d
      ∧ d.mongodbId = A ∧ d.postgresqlId = B := by
  have hup : ms.find? (fun d => d.mongodbId == A || d.postgresqlId == B)
      = none := by
    rw [List.find?_eq_none]
    intro d hd
    simp [(hfree d hd).1, (hfree d hd).2.2.2]
  have hres : createMessageIdMapping uuid now ms A B none
      = ms ++ [{ mongodbId := A, postgresqlId := B, content := none,
                 trackingId := some uuid, createdAt := now }] := by
    unfold createMessageIdMapping
    simp [hA, hB, hup, jsOrNull]
  have hlA : ms.find? (fun d => d.mongodbId == A || d.postgresqlId == A)
      = none := by
    rw [List.find?_eq_none]
    intro d hd
    simp [(hfree d hd).1, (hfree d hd).2.2.1]
  have hlB : ms.find? (fun d => d.mongodbId == B || d.postgresqlId == B)
      = none := by
    rw [List.find?_eq_none]
    intro d hd
    simp [(hfree d hd).2.1, (hfree d hd).2.2.2]
  refine ⟨{ mongodbId := A, postgresqlId := B, content := none,
            trackingId := some uuid, createdAt := now }, ?_, ?_, rfl, rfl⟩
  · rw [hres]
    unfold findMapping
    rw [List.find?_append, hlA]
    simp [List.find?]
  · rw [hres]
    unfold findMapping
    rw [List.find?_append, hlB]
    simp [List.find?]

/-- Witness for the amended mapping claim: recording (m7, pg-42) into
the empty collection. -/
theorem mapping_upsert_lookup_witness :
    ("m7" : String) ≠ "" ∧ ("pg-42" : String) ≠ "" ∧
    (∃ d, findMapping (createMessageIdMapping "u" 5 [] "m7" "pg-42" none)
            "m7" = some d
        ∧ findMapping (createMessageIdMapping "u" 5 [] "m7" "pg-42" none)
            "pg-42" = some d
        ∧ d.mongodbId = "m7" ∧ d.postgresqlId = "pg-42") :=
  ⟨by decide, by decide,
    mapping_upsert_lookup "u" 5 [] "m7" "pg-42" (by decide) (by decide)
      (by simp)⟩

/-- C10: on a response-cache hit within the TTL the /chat handler
returns the cached payload at once and before the session store is
consulted: getOrCreateSession is not called (no sessionLookup effect,
session state and hence lastActivity untouched) and no storage,
forwarding or model-call effect occurs for that request. -/
theorem chat_cache_hit_frame (env : ChatEnv) (st : ChatState)
    (sessionId userMessage : String) (language : Option String)
    (imgCount fileCount : Nat) (r : ResponseData)
    (hhit : cacheGetFresh st.responseCache
        (chatCacheKey sessionId userMessage
          (detectLanguage language userMessage) imgCount fileCount)
        env.now = some r) :
    chatHandler env st sessionId userMessage language imgCount fileCount
      = (.cachedReply r, st, []) := by
  unfold chatHandler
  simp only [hhit]

set_option maxRecDepth 8192 in
/-- Witness for the cache-hit frame theorem: a cache pre-populated under
the key of the request, read within the TTL. -/
theorem chat_cache_hit_frame_witness :
    cacheGetFresh
        ({ heap := [{ response := { message := "m", sessionId := "s1",
                                    threadId := "s1",
                                    postgresqlMessageId := none,
                                    languageDetected := "en",
                                    topic := "general" }, timestamp := 0 }],
           refs := [("s1:hi:en:0:0", 0)] } : ResponseCacheState)
        (chatCacheKey "s1" "hi" (detectLanguage (some "en") "hi") 0 0) 10
      = some { message := "m", sessionId := "s1", threadId := "s1",
               postgresqlMessageId := none, languageDetected := "en",
               topic := "general" } ∧
    chatHandler
        { dbo := dbAllOk, now := 10, rand := "r", modelReply := "x",
          topic := "t", broadcastPg := none }
        { responseCache :=
            { heap := [{ response := { message := "m", sessionId := "s1",
                                       threadId := "s1",
                                       postgresqlMessageId := none,
                                       languageDetected := "en",
                                       topic := "general" }, timestamp := 0 }],
              refs := [("s1:hi:en:0:0", 0)] },
          session := { cache := [], db := [] } }
        "s1" "hi" (some "en") 0 0
      = (.cachedReply { message := "m", sessionId := "s1", threadId := "s1",
                        postgresqlMessageId := none, languageDetected := "en",
                        topic := "general" },
          { responseCache :=
              { heap := [{ response := { message := "m", sessionId := "s1",
                                         threadId := "s1",
                                         postgresqlMessageId := none,
                                         languageDetected := "en",
                                         topic := "general" },
                           timestamp := 0 }],
                refs := [("s1:hi:en:0:0", 0)] },
            session := { cache := [], db := [] } }, []) :=
  ⟨rfl, chat_cache_hit_frame _ _ "s1" "hi" (some "en") 0 0 _ rfl⟩

set_option maxRecDepth 8192 in
/-- C6 evaluation at the failing input: a fresh (cache-miss) request
whose background broadcast returns remote id pg-42.  The back-fill
guard of the continuation tests the pre-call lookup `cached`, which was
undefined on this path, so the newly cached entry keeps a null
postgresqlMessageId instead of receiving pg-42. -/
theorem chat_backfill_never_lands :
    cacheGetFresh
        (chatHandler
          { dbo := dbAllOk, now := 0, rand := "r", modelReply := "hello",
            topic := "general", broadcastPg := some "pg-42" }
          { responseCache := { heap := [], refs := [] },
            session := { cache := [], db := [] } }
          "s1" "hi" (some "en") 0 0).2.1.responseCache
        (chatCacheKey "s1" "hi" "en" 0 0) 0
      = some { message := "hello", sessionId := "s1", threadId := "s1",
               postgresqlMessageId := none, languageDetected := "en",
               topic := "general" } := rfl

theorem except_tryCatch_ok {α : Type} (a : α)
    (h : DbError → Except DbError α) : tryCatch (Except.ok a) h = .ok a := rfl

theorem except_bind_ok {α β : Type} (a : α) (f : α → Except DbError β) :
    (Except.ok a >>= f) = f a := rfl

theorem except_pure_eq {α : Type} (a : α) :
    (pure a : Except DbError α) = .ok a := rfl

theorem except_tryCatch_okh {α : Type} (x : Except DbError α) (v : α) :
    tryCatch x (fun _ => (Except.ok v : Except DbError α)) =
      .ok (match x with | .ok a => a | .error _ => v) := by
  cases x <;> rfl

/-- C1: for a token with an existing session — cached, or found in the
durable store on a cache miss — whose idle gap exceeds the 15-minute
timeout, getOrCreateSession mints a new conversation id from the token
and current time, distinct from the prior id (which was minted at an
earlier time), returns it marked as a new session with lastActivity
reset, persists a rollover record carrying previousConversationId equal
to the prior conversation id, and replaces the cache entry. -/
theorem session_timeout_rollover (st : SessionState) (tok rand : String)
    (now t0 la : Nat) (prior : String) (htok : tok ≠ "")
    (hpath :
      (∃ cached, mapGet st.cache tok = some cached ∧
        cached.conversationId = prior ∧ cached.lastActivity = la) ∨
      (mapGet st.cache tok = none ∧
        ∃ es, st.db.find? (fun d => d.frontendSessionId == tok) = some es ∧
          es.conversationId = prior ∧ es.lastActivity = la))
    (hstale : now - la > SESSION_TIMEOUT)
    (hmint : prior = tok ++ "_" ++ Nat.repr t0) (ht0 : t0 ≠ now) :
    ∃ s st2 doc,
      getOrCreateSession dbAllOk now rand st (some tok) = .ok (s, st2) ∧
      s.conversationId = tok ++ "_" ++ Nat.repr now ∧
      s.conversationId ≠ prior ∧
      s.isNewSession = true ∧
      s.lastActivity = now ∧
      st2.db = st.db ++ [doc] ∧
      doc.previousConversationId = some prior ∧
      doc.conversationId = s.conversationId ∧
      mapGet st2.cache tok = some s := by
  have hne : (tok ++ "_" ++ Nat.repr now) ≠ prior := by
    rw [hmint]
    exact mint_ne_of_time_ne tok now t0 (fun h => ht0 h.symm)
  rcases hpath with ⟨cached, hcache, hprior, hla⟩ | ⟨hcache, es, hfind, hprior, hla⟩
  · refine ⟨{ sessionId := tok, conversationId := tok ++ "_" ++ Nat.repr now,
              startedAt := now, lastActivity := now, isNewSession := true },
            { cache := mapSet st.cache tok
                { sessionId := tok,
                  conversationId := tok ++ "_" ++ Nat.repr now,
                  startedAt := now, lastActivity := now,
                  isNewSession := true },
              db := st.db ++
                [{ frontendSessionId := tok, sessionId := tok,
                   conversationId := tok ++ "_" ++ Nat.repr now,
                   startedAt := now, lastActivity := now,
                   previousConversationId := some prior,
                   isTimeoutSession := true }] },
            { frontendSessionId := tok, sessionId := tok,
              conversationId := tok ++ "_" ++ Nat.repr now,
              startedAt := now, lastActivity := now,
              previousConversationId := some prior, isTimeoutSession := true },
            ?_, rfl, hne, rfl, rfl, rfl, rfl, rfl, ?_⟩
    · unfold getOrCreateSession
      simp [jsOrStr, htok, hcache, hla, hstale, hprior, connectToDatabase,
        dbAllOk, sessionsInsertOne, except_tryCatch_pure, except_tryCatch_okh, except_tryCatch_ok,
        except_bind_ok, except_pure_eq]
    · exact mapGet_mapSet_self _ _ _
  · have hpne : es.conversationId ≠ "" := by
      rw [hprior, hmint]; exact mint_ne_empty tok (Nat.repr t0)
    have hprne : prior ≠ "" := by
      rw [hmint]; exact mint_ne_empty tok (Nat.repr t0)
    refine ⟨{ sessionId := tok, conversationId := tok ++ "_" ++ Nat.repr now,
              startedAt := now, lastActivity := now, isNewSession := true },
            { cache := mapSet st.cache tok
                { sessionId := tok,
                  conversationId := tok ++ "_" ++ Nat.repr now,
                  startedAt := now, lastActivity := now,
                  isNewSession := true },
              db := st.db ++
                [{ frontendSessionId := tok, sessionId := tok,
                   conversationId := tok ++ "_" ++ Nat.repr now,
                   startedAt := now, lastActivity := now,
                   previousConversationId := some prior,
                   isTimeoutSession := true }] },
            { frontendSessionId := tok, sessionId := tok,
              conversationId := tok ++ "_" ++ Nat.repr now,
              startedAt := now, lastActivity := now,
              previousConversationId := some prior, isTimeoutSession := true },
            ?_, rfl, hne, rfl, rfl, rfl, rfl, rfl, ?_⟩
    · unfold getOrCreateSession
      simp [jsOrStr, htok, hcache, hfind, hla, hstale, hprior, hpne, hprne,
        connectToDatabase, dbAllOk, sessionsFindOne, sessionsInsertOne,
        except_tryCatch_pure, except_tryCatch_okh, except_tryCatch_ok, except_bind_ok,
        except_pure_eq]
    · exact mapGet_mapSet_self _ _ _

set_option maxRecDepth 8192 in
/-- Witness for the timeout rollover: token s1 cached with conversation
s1_0 (minted at time 0), next request at time 1000000, more than 16
minutes later. -/
theorem session_timeout_rollover_witness :
    ("s1" : String) ≠ "" ∧
    (1000000 : Nat) - 0 > SESSION_TIMEOUT ∧
    ("s1_0" : String) = "s1" ++ "_" ++ Nat.repr 0 ∧
    (0 : Nat) ≠ 1000000 ∧
    (∃ s st2 doc,
      getOrCreateSession dbAllOk 1000000 "r"
          { cache := [("s1", { sessionId := "s1", conversationId := "s1_0",
                               startedAt := 0, lastActivity := 0,
                               isNewSession := false })], db := [] }
          (some "s1") = .ok (s, st2) ∧
      s.conversationId = "s1" ++ "_" ++ Nat.repr 1000000 ∧
      s.conversationId ≠ "s1_0" ∧
      s.isNewSession = true ∧
      s.lastActivity = 1000000 ∧
      st2.db = [] ++ [doc] ∧
      doc.previousConversationId = some "s1_0" ∧
      doc.conversationId = s.conversationId ∧
      mapGet st2.cache "s1" = some s) :=
  ⟨by decide, by decide, by decide, by decide,
    session_timeout_rollover
      { cache := [("s1", { sessionId := "s1", conversationId := "s1_0",
                           startedAt := 0, lastActivity := 0,
                           isNewSession := false })], db := [] }
      "s1" "r" 1000000 0 0 "s1_0" (by decide)
      (Or.inl ⟨_, rfl, rfl, rfl⟩) (by decide) (by decide) (by decide)⟩

/-- C9: getOrCreateSession never propagates a storage failure to its
caller.  For every oracle (any combination of connection, find, insert
and update failures), every token (supplied or absent) and every
well-formed state (cached sessions and stored documents carry nonempty
identifiers), the call returns an in-memory session object with a
nonempty sessionId and conversationId — it is never an error. -/
theorem session_never_fails (o : DbOracle) (now : Nat) (rand : String)
    (st : SessionState) (sessionId : Option String)
    (hc : ∀ p ∈ st.cache, (p.2 : SessionInfo).sessionId ≠ "" ∧
        (p.2 : SessionInfo).conversationId ≠ "")
    (hd : ∀ d ∈ st.db, (d : GlobalSessionDoc).sessionId ≠ "") :
    match getOrCreateSession o now rand st sessionId with
    | .ok (s, _) => s.sessionId ≠ "" ∧ s.conversationId ≠ ""
    | .error _ => False := by
  have hfsid :
      jsOrStr sessionId ("session_" ++ Nat.repr now ++ "_" ++ rand) ≠ "" :=
    jsOrStr_ne_empty _ _ (mint_ne_empty ("session_" ++ Nat.repr now) rand)
  unfold getOrCreateSession
  cases hm : mapGet st.cache
      (jsOrStr sessionId ("session_" ++ Nat.repr now ++ "_" ++ rand)) with
  | some cached =>
      obtain ⟨k', hkmem⟩ := mapGet_mem _ _ _ hm
      by_cases htime : now - cached.lastActivity > SESSION_TIMEOUT
      · simp [hm, htime, except_tryCatch_pure, except_tryCatch_okh, except_tryCatch_ok,
          except_bind_ok, except_pure_eq]
        exact ⟨hfsid, mint_ne_empty _ _⟩
      · simp [hm, htime, except_tryCatch_pure, except_tryCatch_okh, except_tryCatch_ok,
          except_bind_ok, except_pure_eq]
        exact ⟨(hc _ hkmem).1, (hc _ hkmem).2⟩
  | none =>
      cases hco : o.connectOk with
      | false =>
          simp [hm, connectToDatabase, hco, except_tryCatch_pure, except_tryCatch_okh,
            except_tryCatch_ok, except_bind_ok, except_pure_eq]
          exact ⟨hfsid, mint_ne_empty _ _⟩
      | true =>
          cases hfo : o.findOk with
          | false =>
              simp [hm, connectToDatabase, hco, sessionsFindOne, hfo,
                except_tryCatch_pure, except_tryCatch_okh, except_tryCatch_ok, except_bind_ok,
                except_pure_eq]
              exact ⟨hfsid, mint_ne_empty _ _⟩
          | true =>
              cases hfind : st.db.find? (fun d => d.frontendSessionId ==
                  jsOrStr sessionId
                    ("session_" ++ Nat.repr now ++ "_" ++ rand)) with
              | none =>
                  simp [hm, connectToDatabase, hco, sessionsFindOne, hfo,
                    hfind, except_tryCatch_pure, except_tryCatch_okh, except_tryCatch_ok,
                    except_bind_ok, except_pure_eq]
                  exact ⟨hfsid, mint_ne_empty _ _⟩
              | some es =>
                  by_cases hce : es.conversationId = ""
                  · simp [hm, connectToDatabase, hco, sessionsFindOne, hfo,
                      hfind, hce, except_tryCatch_pure, except_tryCatch_okh, except_tryCatch_ok,
                      except_bind_ok, except_pure_eq]
                    exact ⟨hfsid, mint_ne_empty _ _⟩
                  · by_cases htime2 : now - es.lastActivity > SESSION_TIMEOUT
                    · simp [hm, connectToDatabase, hco, sessionsFindOne, hfo,
                        hfind, hce, htime2, except_tryCatch_pure, except_tryCatch_okh,
                        except_tryCatch_ok, except_bind_ok, except_pure_eq]
                      exact ⟨hfsid, mint_ne_empty _ _⟩
                    · simp [hm, connectToDatabase, hco, sessionsFindOne, hfo,
                        hfind, hce, htime2, except_tryCatch_pure, except_tryCatch_okh,
                        except_tryCatch_ok, except_bind_ok, except_pure_eq]
                      exact hd es (List.mem_of_find?_eq_some hfind)

/-- Witness for the no-raise theorem: storage entirely down, no token
supplied, empty state. -/
theorem session_never_fails_witness :
    (∀ p ∈ ([] : List (String × SessionInfo)), (p.2 : SessionInfo).sessionId ≠ ""
        ∧ (p.2 : SessionInfo).conversationId ≠ "") ∧
    (∀ d ∈ ([] : List GlobalSessionDoc), (d : GlobalSessionDoc).sessionId ≠ "") ∧
    (match getOrCreateSession
        { connectOk := false, findOk := false, insertOk := false,
          updateOk := false } 7 "r" { cache := [], db := [] } none with
      | .ok (s, _) => s.sessionId ≠ "" ∧ s.conversationId ≠ ""
      | .error _ => False) :=
  ⟨by simp, by simp,
    session_never_fails
      { connectOk := false, findOk := false, insertOk := false,
        updateOk := false } 7 "r" { cache := [], db := [] } none
      (by simp) (by simp)⟩

theorem contains_true_of_mem (l : List String) (s : String) (h : s ∈ l) :
    l.contains s = true := by simpa using h

theorem contains_false_of_not_mem (l : List String) (s : String)
    (h : s ∉ l) : l.contains s = false := by simpa using h

theorem mem_processed_after (l : List String) (s : String) :
    s ∈ (if (l ++ [s]).length > 1000 then (l ++ [s]).drop 500
         else l ++ [s]) := by
  by_cases h : (l ++ [s]).length > 1000
  · rw [if_pos h]
    have hlen : 500 ≤ l.length := by
      simp only [List.length_append, List.length_singleton] at h
      omega
    rw [List.drop_append_of_le_length hlen]
    exact List.mem_append_right _ (by simp)
  · rw [if_neg h]
    exact List.mem_append_right _ (by simp)

theorem save_mongo_effects (now : Nat) (convs : List StoredConversation)
    (c : ConversationData) :
    (saveConversationToMongoDB true now convs c).2.2
      = [ProcEffect.mongoSave] := by
  unfold saveConversationToMongoDB
  cases h : convs.find? (fun d => d.conv.id == c.id) <;> simp [h]

theorem sendAnalytics_fresh (now : Nat) (outcome : AnalyticsOutcome)
    (mongoOk : Bool) (st : ProcState) (c : ConversationData)
    (hmiss : mapGet st.analyticsSentMessages
        (analyticsSignature (botMessagesOf c)) = none) :
    (sendConversationToAnalytics now outcome mongoOk st c).2.2
        = [ProcEffect.analyticsPost] ∧
    ((sendConversationToAnalytics now outcome mongoOk st c).2.1).processedMessages
        = st.processedMessages := by
  unfold sendConversationToAnalytics
  cases hbe : (botMessagesOf c).isEmpty <;>
    cases outcome <;> cases mongoOk <;> simp [hbe, hmiss]

theorem normalizeMessage_user_fix (now : Nat) (rand : String)
    (id content : String) (ts : Nat) (lang : String)
    (hid : id ≠ "") (hcontent : content ≠ "") (hlang : lang ≠ "") :
    normalizeMessage now rand
      { id := some id, content := some content, role := some "user",
        sender := some "user", timestamp := some ts, language := some lang }
      = { id := id, content := content, role := "user", type := "user",
          timestamp := ts, language := lang, postgresqlId := none } := by
  simp [normalizeMessage, jsOrStr, jsOrNull, hid, hcontent, hlang]

theorem normalizeMessage_bot_fix (now : Nat) (rand : String)
    (id content : String) (ts : Nat) (lang : String)
    (hid : id ≠ "") (hcontent : content ≠ "") (hlang : lang ≠ "") :
    normalizeMessage now rand
      { id := some id, content := some content, role := some "assistant",
        sender := some "bot", timestamp := some ts, language := some lang }
      = { id := id, content := content, role := "assistant", type := "bot",
          timestamp := ts, language := lang, postgresqlId := none } := by
  simp [normalizeMessage, jsOrStr, jsOrNull, hid, hcontent, hlang]

theorem normalizeMessage_user_raw_fix (now : Nat) (rand : String)
    (id content : String) (ts : Nat) (lang : String)
    (hid : id ≠ "") (hcontent : content ≠ "") (hlang : lang ≠ "") :
    normalizeMessage now rand
      (MessageData.toRaw { id := id, content := content, role := "user",
                           type := "user", timestamp := ts, language := lang,
                           postgresqlId := none })
      = { id := id, content := content, role := "user", type := "user",
          timestamp := ts, language := lang, postgresqlId := none } := by
  simp [normalizeMessage, MessageData.toRaw, jsOrStr, jsOrNull, hid,
    hcontent, hlang]

theorem normalizeMessage_bot_raw_fix (now : Nat) (rand : String)
    (id content : String) (ts : Nat) (lang : String)
    (hid : id ≠ "") (hcontent : content ≠ "") (hlang : lang ≠ "") :
    normalizeMessage now rand
      (MessageData.toRaw { id := id, content := content,
                           role := "assistant", type := "bot",
                           timestamp := ts, language := lang,
                           postgresqlId := none })
      = { id := id, content := content, role := "assistant", type := "bot",
          timestamp := ts, language := lang, postgresqlId := none } := by
  simp [normalizeMessage, MessageData.toRaw, jsOrStr, jsOrNull, hid,
    hcontent, hlang]

theorem normalizeConversation_msgs (now : Nat) (rc ru rb : String)
    (raw : RawConversation) (U B : MessageData)
    (hmsgs : raw.messages = some [U.toRaw, B.toRaw])
    (huMsg : raw.userMessage = none) (hbMsg : raw.botResponse = none)
    (hUfix : normalizeMessage now rc U.toRaw = U)
    (hBfix : normalizeMessage now rc B.toRaw = B)
    (hts : ¬(B.timestamp < U.timestamp)) :
    (normalizeConversation now rc ru rb raw).messages = [U, B] := by
  unfold normalizeConversation
  simp [hmsgs, huMsg, hbMsg, hUfix, hBfix, jsTruthy, sortByTimestamp,
    insertByTimestamp, hts]

theorem count_pair_effects :
    ([ProcEffect.mongoSave] ++ [ProcEffect.analyticsPost]).count
        ProcEffect.mongoSave = 1 ∧
    ([ProcEffect.mongoSave] ++ [ProcEffect.analyticsPost]).count
        ProcEffect.analyticsPost = 1 := by decide

theorem botMessagesOf_pair (c : ConversationData) (U B : MessageData)
    (h : c.messages = [U, B])
    (hU : (U.role == "assistant" || U.type == "bot") = false)
    (hB : (B.role == "assistant" || B.type == "bot") = true) :
    botMessagesOf c = [B] := by
  unfold botMessagesOf
  rw [h]
  simp [List.filter, hU, hB]

theorem analyticsSignature_singleton (m : MessageData) :
    analyticsSignature [m]
      = m.content.take 50 ++ "-" ++ Nat.repr m.timestamp := rfl

theorem processMessagePair_fresh_spec (env : ProcEnv) (st : ProcState)
    (u b : String) (md : ProcMeta) (hu : u ≠ "") (hb : b ≠ "")
    (hfresh : messageSignature env.session.conversationId u b
        ∉ st.processedMessages)
    (hmongo : env.mongoOk = true)
    (hmiss : mapGet st.analyticsSentMessages
        (b.take 50 ++ "-" ++ Nat.repr (env.now + 1)) = none) :
    (processMessagePair env st u b md).2.2.count ProcEffect.mongoSave = 1 ∧
    (processMessagePair env st u b md).2.2.count ProcEffect.analyticsPost
        = 1 ∧
    messageSignature env.session.conversationId u b
        ∈ (processMessagePair env st u b md).2.1.processedMessages := by
  have hcont : st.processedMessages.contains
      (messageSignature env.session.conversationId u b) = false :=
    contains_false_of_not_mem _ _ hfresh
  have hlang : jsOrStr md.language "en" ≠ "" :=
    jsOrStr_ne_empty _ _ (by decide)
  have huid : ("user-msg-" ++ Nat.repr env.now ++ "-" ++ env.uuid1.take 8)
      ≠ "" :=
    append_ne_empty_left _ _ (append_ne_empty_right _ "-" (by decide))
  have hbid : ("bot-msg-" ++ Nat.repr (env.now + 1) ++ "-"
      ++ env.uuid2.take 8) ≠ "" :=
    append_ne_empty_left _ _ (append_ne_empty_right _ "-" (by decide))
  have hU1 := normalizeMessage_user_fix env.now ""
    ("user-msg-" ++ Nat.repr env.now ++ "-" ++ env.uuid1.take 8) u env.now
    (jsOrStr md.language "en") huid hu hlang
  have hB1 := normalizeMessage_bot_fix env.now ""
    ("bot-msg-" ++ Nat.repr (env.now + 1) ++ "-" ++ env.uuid2.take 8) b
    (env.now + 1) (jsOrStr md.language "en") hbid hb hlang
  have hU2 := normalizeMessage_user_raw_fix env.now ""
    ("user-msg-" ++ Nat.repr env.now ++ "-" ++ env.uuid1.take 8) u env.now
    (jsOrStr md.language "en") huid hu hlang
  have hB2 := normalizeMessage_bot_raw_fix env.now ""
    ("bot-msg-" ++ Nat.repr (env.now + 1) ++ "-" ++ env.uuid2.take 8) b
    (env.now + 1) (jsOrStr md.language "en") hbid hb hlang
  have hval : (decide (u = "") || decide (b = "")) = false := by
    simp [hu, hb]
  unfold processMessagePair
  simp only [hval, Bool.false_eq_true, if_false, hcont, hU1, hB1]
  have hconv :
      (normalizeConversation env.now "" "" ""
        { id := some env.session.conversationId,
          sessionId := some env.session.sessionId,
          clientId := some (jsOrStr md.clientId "svorum-strax"),
          messages := some
            [MessageData.toRaw
              { id := "user-msg-" ++ Nat.repr env.now ++ "-"
                  ++ env.uuid1.take 8,
                content := u, role := "user", type := "user",
                timestamp := env.now,
                language := jsOrStr md.language "en",
                postgresqlId := none },
             MessageData.toRaw
              { id := "bot-msg-" ++ Nat.repr (env.now + 1) ++ "-"
                  ++ env.uuid2.take 8,
                content := b, role := "assistant", type := "bot",
                timestamp := env.now + 1,
                language := jsOrStr md.language "en",
                postgresqlId := none }],
          startedAt := some env.session.startedAt,
          endedAt := some env.now,
          language := some (jsOrStr md.language "en"),
          topic := some (jsOrStr md.topic "general"),
          status := some (jsOrStr md.status "active") }).messages
      = [{ id := "user-msg-" ++ Nat.repr env.now ++ "-" ++ env.uuid1.take 8,
           content := u, role := "user", type := "user",
           timestamp := env.now, language := jsOrStr md.language "en",
           postgresqlId := none },
         { id := "bot-msg-" ++ Nat.repr (env.now + 1) ++ "-"
             ++ env.uuid2.take 8,
           content := b, role := "assistant", type := "bot",
           timestamp := env.now + 1, language := jsOrStr md.language "en",
           postgresqlId := none }] :=
    normalizeConversation_msgs env.now "" "" "" _ _ _ rfl rfl rfl hU2 hB2
      (by simp)
  have hmem : messageSignature env.session.conversationId u b ∈
      (if (st.processedMessages
            ++ [messageSignature env.session.conversationId u b]).length
          > 1000 then
        List.drop 500 (st.processedMessages
          ++ [messageSignature env.session.conversationId u b])
      else st.processedMessages
          ++ [messageSignature env.session.conversationId u b]) := by
    by_cases hlen : (st.processedMessages
        ++ [messageSignature env.session.conversationId u b]).length > 1000
    · rw [if_pos hlen]
      rw [List.drop_append_of_le_length
        (by simp only [List.length_append, List.length_singleton] at hlen;
            omega)]
      exact List.mem_append_right _ (by simp)
    · rw [if_neg hlen]
      exact List.mem_append_right _ (by simp)
  simp only [sendConversationToAnalytics,
    botMessagesOf_pair _ _ _ hconv rfl rfl, List.isEmpty_cons,
    Bool.false_eq_true, if_false, analyticsSignature_singleton, hconv,
    hmiss, hmongo]
  cases hoc : env.analytics <;>
    simp only [hoc] <;>
    refine ⟨?_, ?_, hmem⟩ <;>
    rw [save_mongo_effects] <;>
    exact count_pair_effects.1

/-- C2: submitting the identical (conversationId, userText, botText)
pair twice within the dedup window yields exactly one persisted and one
forwarded record: the accepted first call performs one MongoDB save and
one analytics POST, while the second call reports the duplicate-message
result, leaves the state exactly as it was, and performs no persistence
or forwarding at all. -/
theorem processMessagePair_idempotent (env1 env2 : ProcEnv)
    (st0 : ProcState) (u b : String) (md1 md2 : ProcMeta)
    (hu : u ≠ "") (hb : b ≠ "")
    (hcid : env2.session.conversationId = env1.session.conversationId)
    (hfresh : messageSignature env1.session.conversationId u b
        ∉ st0.processedMessages)
    (hmongo : env1.mongoOk = true)
    (hmiss : mapGet st0.analyticsSentMessages
        (b.take 50 ++ "-" ++ Nat.repr (env1.now + 1)) = none) :
    (processMessagePair env1 st0 u b md1).2.2.count
        ProcEffect.mongoSave = 1 ∧
    (processMessagePair env1 st0 u b md1).2.2.count
        ProcEffect.analyticsPost = 1 ∧
    processMessagePair env2 (processMessagePair env1 st0 u b md1).2.1 u b md2
      = (ProcResult.duplicateMessage,
          (processMessagePair env1 st0 u b md1).2.1, []) := by
  obtain ⟨h1, h2, hmem⟩ :=
    processMessagePair_fresh_spec env1 st0 u b md1 hu hb hfresh hmongo hmiss
  refine ⟨h1, h2, ?_⟩
  set st1 := (processMessagePair env1 st0 u b md1).2.1 with hst1
  have hcont : st1.processedMessages.contains
      (messageSignature env2.session.conversationId u b) = true := by
    rw [hcid]
    exact contains_true_of_mem _ _ hmem
  unfold processMessagePair
  simp only [show (decide (u = "") || decide (b = "")) = false by
      simp [hu, hb],
    Bool.false_eq_true, if_false, hcont, if_true]

set_option maxRecDepth 16384 in
/-- Witness for the dedup idempotence: the pair (hi, hello) on
conversation c1, empty initial state, analytics returning two remote
ids. -/
theorem processMessagePair_idempotent_witness :
    ("hi" : String) ≠ "" ∧ ("hello" : String) ≠ "" ∧
    (({ session := { sessionId := "s1", conversationId := "c1",
                     startedAt := 0, lastActivity := 0,
                     isNewSession := false },
        now := 0, uuid1 := "aaaaaaaa", uuid2 := "bbbbbbbb",
        mongoOk := true,
        analytics := .ok ["pg-1", "pg-2"] } : ProcEnv).session.conversationId
      = ({ session := { sessionId := "s1", conversationId := "c1",
                        startedAt := 0, lastActivity := 0,
                        isNewSession := false },
           now := 0, uuid1 := "aaaaaaaa", uuid2 := "bbbbbbbb",
           mongoOk := true,
           analytics := .ok ["pg-1", "pg-2"] } : ProcEnv).session.conversationId) ∧
    messageSignature "c1" "hi" "hello" ∉
      ([] : List String) ∧
    mapGet ([] : List (String × SentRecord))
        ("hello".take 50 ++ "-" ++ Nat.repr 1) = none ∧
    ((processMessagePair
        { session := { sessionId := "s1", conversationId := "c1",
                       startedAt := 0, lastActivity := 0,
                       isNewSession := false },
          now := 0, uuid1 := "aaaaaaaa", uuid2 := "bbbbbbbb",
          mongoOk := true, analytics := .ok ["pg-1", "pg-2"] }
        { processedMessages := [], analyticsSentMessages := [],
          conversations := [], mappings := [] } "hi" "hello" {}).2.2.count
        ProcEffect.mongoSave = 1 ∧
     (processMessagePair
        { session := { sessionId := "s1", conversationId := "c1",
                       startedAt := 0, lastActivity := 0,
                       isNewSession := false },
          now := 0, uuid1 := "aaaaaaaa", uuid2 := "bbbbbbbb",
          mongoOk := true, analytics := .ok ["pg-1", "pg-2"] }
        { processedMessages := [], analyticsSentMessages := [],
          conversations := [], mappings := [] } "hi" "hello" {}).2.2.count
        ProcEffect.analyticsPost = 1 ∧
     processMessagePair
        { session := { sessionId := "s1", conversationId := "c1",
                       startedAt := 0, lastActivity := 0,
                       isNewSession := false },
          now := 0, uuid1 := "aaaaaaaa", uuid2 := "bbbbbbbb",
          mongoOk := true, analytics := .ok ["pg-1", "pg-2"] }
        (processMessagePair
          { session := { sessionId := "s1", conversationId := "c1",
                         startedAt := 0, lastActivity := 0,
                         isNewSession := false },
            now := 0, uuid1 := "aaaaaaaa", uuid2 := "bbbbbbbb",
            mongoOk := true, analytics := .ok ["pg-1", "pg-2"] }
          { processedMessages := [], analyticsSentMessages := [],
            conversations := [], mappings := [] } "hi" "hello" {}).2.1
        "hi" "hello" {}
       = (ProcResult.duplicateMessage,
           (processMessagePair
             { session := { sessionId := "s1", conversationId := "c1",
                            startedAt := 0, lastActivity := 0,
                            isNewSession := false },
               now := 0, uuid1 := "aaaaaaaa", uuid2 := "bbbbbbbb",
               mongoOk := true, analytics := .ok ["pg-1", "pg-2"] }
             { processedMessages := [], analyticsSentMessages := [],
               conversations := [], mappings := [] } "hi" "hello" {}).2.1,
           [])) :=
  ⟨by decide, by decide, rfl, by simp [messageSignature], rfl,
    processMessagePair_idempotent _ _ _ "hi" "hello" {} {}
      (by decide) (by decide) rfl (by simp [messageSignature]) rfl rfl⟩
